import Mathlib

/-!
Verification of the `velenium` visual-element search engine
(`src/velenium/__init__.py`) against its natural-language specification.

The development shallowly embeds the module's core: the multi-scale
template-search pyramid (`_find_matches`, lines 132-221), the
occurrence-suppression loop, the ordering of matches by disposal policy and
the cached query interface of `VisualElement` (`_search_all_matches`,
`__len__`, `__getitem__`, `__iter__`, `reset_object`, `is_visible`).

External collaborators (OpenCV correlation, screen capture, filesystem glob)
are modelled as an abstract environment: `matchTemplate` followed by
`minMaxLoc` becomes an oracle `bestMatch : Image → ℚ × (ℤ × ℤ)` attached to
each template file, `cv.rectangle(..., -1)` (black fill) becomes an abstract
`mask` operation on images, and `imutils.resize` keeps its arithmetic
contract (exact target width, height scaled preserving aspect ratio).
Python floats are idealized as rationals; Python `int()` is truncation
toward zero.
-/

namespace Velenium

/-- Multiplication on `ℚ` written directly on numerator/denominator pairs so
that it reduces inside the kernel; proved equal to `(· * ·)` below. -/
def qmul (a b : ℚ) : ℚ := mkRat (a.num * b.num) (a.den * b.den)

/-- Division on `ℚ` written directly on numerator/denominator pairs so that
it reduces inside the kernel; proved equal to `(· / ·)` below. -/
def qdiv (a b : ℚ) : ℚ := Rat.divInt (a.num * (b.den : ℤ)) ((a.den : ℤ) * b.num)



/-- Python `int()` on a rational value: truncation toward zero. -/
def pyInt (q : ℚ) : ℤ := if 0 ≤ q then q.floor else q.ceil


/-- One found occurrence of a template, as stored in `VisualElement.matchList`
(`VisualMatch` in the source, lines 26-34): center coordinates in source-image
pixels, the template's width/height, and the correlation score.  The driver
back-reference (used only by `click`) is dropped. -/
structure VisualMatch where
  x : ℤ
  y : ℤ
  width : ℕ
  height : ℕ
  similarity : ℚ
deriving DecidableEq

/-- One resolved template file: its path, whether `os.path.isfile` holds for
it, the grayscale template's dimensions (`template.shape[:2]`), and the
correlation oracle for this template — `cv.matchTemplate` followed by
`cv.minMaxLoc`, returning the score map's maximum value and its location. -/
structure TemplateEnv (Image : Type) where
  path : String
  isfile : Bool
  w : ℕ
  h : ℕ
  bestMatch : Image → ℚ × (ℤ × ℤ)

/-- The abstract screen/CV environment of one search: the grayscale
screenshot's dimensions (`gray.shape`), `imutils.resize` producing the
resized image at a requested width, the black-fill `cv.rectangle` masking
operation (image, top-left location, template width and height), and
filesystem glob resolution of a template pattern. -/
structure SearchEnv (Image : Type) where
  grayW : ℕ
  grayH : ℕ
  resize : ℕ → Image
  mask : Image → ℤ × ℤ → ℕ → ℕ → Image
  glob : String → List (TemplateEnv Image)

/-- The i-th element of `np.linspace(0.2, 1.0, 20)`, i.e.
`0.2 + i * (1.0 - 0.2) / 19`, written as the reduced fraction
`(19 + 4 i) / 95` so that it evaluates inside the kernel. -/
def linspaceScale (i : ℕ) : ℚ := mkRat (19 + 4 * i) 95


/-- The scale sequence of the pyramid loop, `np.linspace(0.2, 1.0, 20)[::-1]`
(source line 158): twenty linearly spaced factors visited from 1.0 down
to 0.2. -/
def scaleList : List ℚ := ((List.range 20).map linspaceScale).reverse

/-- `VisualElement._get_bounds` (lines 110-114): map a location in the
resized image back to source-pixel bounds through the resize ratio `r`,
truncating each product as Python `int()` does. -/
def getBounds (loc : ℤ × ℤ) (w h : ℕ) (r : ℚ) : ℤ × ℤ × ℤ × ℤ :=
  let ex : ℤ := loc.1 + (w : ℤ)
  let ey : ℤ := loc.2 + (h : ℤ)
  (pyInt (qmul (loc.1 : ℚ) r), pyInt (qmul (loc.2 : ℚ) r),
   pyInt (qmul (ex : ℚ) r), pyInt (qmul (ey : ℚ) r))

/-- Construction of one emitted match (source lines 198 and 216): source
bounds via `getBounds`, center at the bound's top-left corner offset by half
the template size (`start + int(w/2)`, `start + int(h/2)`). -/
def mkMatch (loc : ℤ × ℤ) (w h : ℕ) (r : ℚ) (v : ℚ) : VisualMatch :=
  let b := getBounds loc w h r
  { x := b.1 + ((w / 2 : ℕ) : ℤ), y := b.2.1 + ((h / 2 : ℕ) : ℤ),
    width := w, height := h, similarity := v }

/-- The bookkeeping tuple `occurrence = (max_val, max_loc, r, resized)` of
the pyramid loop (source line 178). -/
structure Occurrence (Image : Type) where
  val : ℚ
  loc : ℤ × ℤ
  r : ℚ
  resized : Image

/-- Width of the resized image at scale `s`: `int(gray.shape[1] * scale)`
(source line 161). -/
def resizedW {Image : Type} (env : SearchEnv Image) (s : ℚ) : ℕ :=
  (pyInt (qmul (env.grayW : ℚ) s)).toNat

/-- Height of the resized image at width `rw`: `imutils.resize` preserves
aspect ratio, `int(gray.shape[0] * (rw / gray.shape[1]))`. -/
def resizedH {Image : Type} (env : SearchEnv Image) (rw : ℕ) : ℕ :=
  (pyInt (qmul (env.grayH : ℚ) (qdiv (rw : ℚ) (env.grayW : ℚ)))).toNat

/-- The early-exit test of the pyramid loop (source line 165): stop once the
resized image is smaller than the template in either dimension. -/
def breakCond {Image : Type} (env : SearchEnv Image) (t : TemplateEnv Image)
    (s : ℚ) : Prop :=
  resizedH env (resizedW env s) < t.h ∨ resizedW env s < t.w

instance {Image : Type} (env : SearchEnv Image) (t : TemplateEnv Image)
    (s : ℚ) : Decidable (breakCond env t s) := by
  unfold breakCond
  infer_instance

/-- The candidate occurrence at scale `s`: the correlation oracle's best
value and location on the resized image, together with the resize ratio
`r = gray.shape[1] / resized.shape[1]` (source lines 161-172). -/
def pyrCand {Image : Type} (env : SearchEnv Image) (t : TemplateEnv Image)
    (s : ℚ) : Occurrence Image :=
  { val := (t.bestMatch (env.resize (resizedW env s))).1,
    loc := (t.bestMatch (env.resize (resizedW env s))).2,
    r := qdiv ((env.grayW : ℕ) : ℚ) ((resizedW env s : ℕ) : ℚ),
    resized := env.resize (resizedW env s) }

/-- The body of one pyramid iteration after the size test (source lines
168-178): run the correlation oracle on the resized image, skip the scale if
the best score is not above the threshold, otherwise keep the candidate as
the new bookkeeping occurrence when it strictly beats the incumbent. -/
def pyramidStep {Image : Type} (env : SearchEnv Image) (t : TemplateEnv Image)
    (sim : ℚ) (s : ℚ) (occ : Option (Occurrence Image)) :
    Option (Occurrence Image) :=
  let c := pyrCand env t s
  if c.val ≤ sim then occ
  else
    match occ with
    | none => some c
    | some o => if o.val < c.val then some c else some o

/-- The scale-pyramid loop of `_find_matches` (source lines 158-178),
folding `pyramidStep` over the descending scale sequence and stopping
entirely at the first scale whose resized image is smaller than the
template. -/
def pyramidLoop {Image : Type} (env : SearchEnv Image) (t : TemplateEnv Image)
    (sim : ℚ) : List ℚ → Option (Occurrence Image) → Option (Occurrence Image)
  | [], occ => occ
  | s :: rest, occ =>
    if breakCond env t s then occ
    else pyramidLoop env t sim rest (pyramidStep env t sim s occ)

/-- The occurrence-suppression loop of `_find_matches` (source lines
201-216): up to `max_occurrences` times, black out the rectangle of the
previous best location in the resized image, re-run the correlation oracle,
stop as soon as the new best score is not above the threshold, and otherwise
emit a further match at the new location. -/
def extractLoop {Image : Type} (env : SearchEnv Image) (t : TemplateEnv Image)
    (sim r : ℚ) : ℕ → Image → ℤ × ℤ → List VisualMatch
  | 0, _, _ => []
  | n + 1, img, loc =>
    let img' := env.mask img loc t.w t.h
    let m := t.bestMatch img'
    if m.1 ≤ sim then []
    else mkMatch m.2 t.w t.h r m.1 :: extractLoop env t sim r n img' m.2

/-- The mutable state and configuration of a `VisualElement` (source lines
42-55): the glob pattern, the requested occurrence index `order`, the
disposal (ordering) policy, the similarity threshold, the diagnostic name,
the occurrence cap (16 in `__init__`), and the cached search state
(`_searched` flag plus accumulated `matches`).  The correlation `method` is
folded into each template's `bestMatch` oracle; the `driver` and the debug
flag play no part in the verified behaviour. -/
structure VisualElement where
  path : String
  order : ℤ
  disposal : ℤ
  similarity : ℚ
  name : String
  maxOccurrences : ℕ
  searched : Bool
  matchList : List VisualMatch
deriving DecidableEq

/-- The search part of `_find_matches` after the validation guards (source
lines 140-221): run the scale pyramid, and if it produced a best occurrence
emit it (centered per `mkMatch`) followed by the occurrence-suppression
loop; if no scale beat the threshold, no matches are emitted. -/
def findCore {Image : Type} (env : SearchEnv Image) (t : TemplateEnv Image)
    (sim : ℚ) (maxOcc : ℕ) : List VisualMatch :=
  match pyramidLoop env t sim scaleList none with
  | none => []
  | some o =>
    mkMatch o.loc t.w t.h o.r o.val ::
      extractLoop env t sim o.r maxOcc o.resized o.loc

/-- `VisualElement._find_matches` for a single resolved template path
(source lines 132-221): validate that the path is a regular file, that the
disposal policy lies in `range(2)` and the order in
`range(max_occurrences)`; then search via `findCore`.  Raised exceptions are
modelled as `Except.error` carrying the formatted message. -/
def findMatches {Image : Type} (env : SearchEnv Image) (e : VisualElement)
    (t : TemplateEnv Image) : Except String (List VisualMatch) :=
  if t.isfile = false then
    .error ("Template route doesn't exist: " ++ t.path)
  else if ¬ (0 ≤ e.disposal ∧ e.disposal < 2) then
    .error ("Disposal priority not valid: " ++ toString e.disposal)
  else if ¬ (0 ≤ e.order ∧ e.order < (e.maxOccurrences : ℤ)) then
    .error ("Order above max occurrences: " ++ toString e.order ++ " > " ++
      toString e.maxOccurrences)
  else
    .ok (findCore env t e.similarity e.maxOccurrences)

/-- The per-template-file accumulation loop of `_search_all_matches` (source
lines 119-120): run `_find_matches` on each resolved path in order,
appending the found matches to `self.matchList`; a raised exception aborts the
whole search. -/
def searchFiles {Image : Type} (env : SearchEnv Image) (e : VisualElement) :
    List (TemplateEnv Image) → List VisualMatch → Except String (List VisualMatch)
  | [], acc => .ok acc
  | t :: ts, acc =>
    match findMatches env e t with
    | .error s => .error s
    | .ok ms => searchFiles env e ts (acc ++ ms)

/-- The ordering pass of `_search_all_matches` (source lines 122-127):
stable sort of the accumulated matches by the disposal policy — vertical
(`disposal = 1`) ascending by `y`, horizontal (`disposal = 2`) ascending by
`x`, similarity (`disposal = 0`) descending by `similarity`.  Python's
`list.sort` is a stable sort, modelled by the stable `List.insertionSort`. -/
def sortMatches (disposal : ℤ) (ms : List VisualMatch) : List VisualMatch :=
  if disposal = 1 then List.insertionSort (fun a b => a.y ≤ b.y) ms
  else if disposal = 2 then List.insertionSort (fun a b => a.x ≤ b.x) ms
  else if disposal = 0 then
    List.insertionSort (fun a b => b.similarity ≤ a.similarity) ms
  else ms

/-- `VisualElement.reset_object` (source lines 77-80): clear the searched
flag and the cached match list. -/
def resetObject (e : VisualElement) : VisualElement :=
  { e with searched := false, matchList := [] }

/-- `VisualElement._search_all_matches` (source lines 116-130): reset the
cached state, run `_find_matches` over every glob-resolved template path,
sort the union by the disposal policy and set the searched flag. -/
def searchAllMatches {Image : Type} (env : SearchEnv Image)
    (e : VisualElement) : Except String VisualElement :=
  match searchFiles env (resetObject e) (env.glob e.path) [] with
  | .error s => .error s
  | .ok ms =>
    .ok { resetObject e with matchList := sortMatches e.disposal ms, searched := true }

/-- The shared access pattern of `__len__`, `__getitem__` and `__iter__`
(source lines 61-71): `self.matchList if self._searched else
self._search_all_matches().matchList` — answer from the cache when the
searched flag is set, otherwise run a fresh search (which mutates the
element).  Returns the match list together with the element state after the
access. -/
def matchesQuery {Image : Type} (env : SearchEnv Image) (e : VisualElement) :
    Except String (List VisualMatch × VisualElement) :=
  if e.searched then .ok (e.matchList, e)
  else
    match searchAllMatches env e with
    | .error s => .error s
    | .ok e' => .ok (e'.matchList, e')

/-- `VisualElement.__getitem__` (source lines 64-68): index into the (cached
or freshly searched) match list; on `IndexError` raise an exception whose
message interpolates `self.order` and `len(self.matchList)`. -/
def getitemQuery {Image : Type} (env : SearchEnv Image) (e : VisualElement)
    (i : ℕ) : Except String (VisualMatch × VisualElement) :=
  match matchesQuery env e with
  | .error s => .error s
  | .ok (ms, e') =>
    match ms.get? i with
    | some m => .ok (m, e')
    | none =>
      .error ("Index above matches: " ++ toString e'.order ++ " > " ++
        toString e'.matchList.length)

/-- `VisualElement.is_visible` (source lines 82-83): run
`_search_all_matches` unconditionally and report whether the fresh match
list is non-empty.  Returns the flag together with the mutated element. -/
def isVisible {Image : Type} (env : SearchEnv Image) (e : VisualElement) :
    Except String (Bool × VisualElement) :=
  match searchAllMatches env e with
  | .error s => .error s
  | .ok e' => .ok (!e'.matchList.isEmpty, e')

/-- CPython `glob.glob` applied to a pattern containing no wildcard (magic)
characters: the literal path is returned exactly when something exists at it
on the filesystem (`os.path.lexists`), so a pattern naming a missing
concrete file resolves to the empty list.  The `TemplateEnv` argument
describes the file the pattern names; `lexists` says whether the path
exists at all (`isfile` inside it says whether it is a regular file). -/
def globNoMagic {Image : Type} (lexists : Bool) (t : TemplateEnv Image) :
    List (TemplateEnv Image) :=
  if lexists then [t] else []

/-- Relation between the pyramid bookkeeping accumulator of a run at a low
threshold (`a`) and the accumulator of the same run at a high threshold `t'`
(`a'`): either the two agree and the kept value beats `t'`, or the
high-threshold run has kept nothing because every value the low-threshold
run kept is at most `t'`. -/
def pyrInv {Image : Type} (t' : ℚ) (a a' : Option (Occurrence Image)) : Prop :=
  (a' = a ∧ ∀ o, a' = some o → t' < o.val) ∨
  (a' = none ∧ ∀ o, a = some o → o.val ≤ t')

deriving instance DecidableEq for Except

deriving instance DecidableEq for Occurrence

/-- A trivial environment whose glob reports no template files. -/
def envUnit : SearchEnv Unit :=
  { grayW := 0, grayH := 0, resize := fun _ => (),
    mask := fun _ _ _ _ => (), glob := fun _ => [] }

/-- A template whose correlation oracle reports the score 9/10 at location
(0, 0) on every image: a screen covered with copies of the template keeps
matching even after masking. -/
def tplStar : TemplateEnv Unit :=
  { path := "img/star.png", isfile := true, w := 10, h := 10,
    bestMatch := fun _ => (mkRat 9 10, (0, 0)) }

/-- A 100 x 100 screen environment resolving `tplStar`. -/
def envStar : SearchEnv Unit :=
  { grayW := 100, grayH := 100, resize := fun _ => (),
    mask := fun _ _ _ _ => (), glob := fun _ => [tplStar] }

/-- A freshly constructed element with the default configuration of
`VisualElement.__init__`: order 0, similarity-order disposal, threshold 0.7,
cap 16, empty cache. -/
def elemStar : VisualElement :=
  { path := "img/star.png", order := 0, disposal := 0,
    similarity := mkRat 7 10, name := "star", maxOccurrences := 16,
    searched := false, matchList := [] }

/-- A template over images represented as resized widths; its oracle scores
9/10 only on the resized image of width 57 (so the pyramid winner sits at a
scale ratio of 100/57), and 0 on every other image — in particular on every
masked image (masking bumps the representation by 1000). -/
def tplScaled : TemplateEnv ℕ :=
  { path := "img/button.png", isfile := true, w := 10, h := 10,
    bestMatch := fun img => if img = 57 then (mkRat 9 10, (0, 0)) else (0, (0, 0)) }

/-- A 100 x 100 screen whose images are represented by their resized width;
masking moves an image out of the oracle's accepted set. -/
def envScaled : SearchEnv ℕ :=
  { grayW := 100, grayH := 100, resize := fun rw => rw,
    mask := fun img _ _ _ => img + 1000, glob := fun _ => [tplScaled] }

/-- The element querying `tplScaled` with the default configuration. -/
def elemScaled : VisualElement :=
  { path := "img/button.png", order := 0, disposal := 0,
    similarity := mkRat 7 10, name := "button", maxOccurrences := 16,
    searched := false, matchList := [] }

/-- The winning occurrence of the `envScaled` search: score 9/10 at location
(0, 0), ratio 100/57, on the resized image of width 57. -/
def oScaled : Occurrence ℕ :=
  { val := mkRat 9 10, loc := (0, 0),
    r := qdiv ((100 : ℕ) : ℚ) ((57 : ℕ) : ℚ), resized := 57 }

/-- An element with an invalid disposal policy (5) and an out-of-bounds
order (20, beyond the cap of 16). -/
def elemBadConfig : VisualElement :=
  { path := "img/star.png", order := 20, disposal := 5,
    similarity := mkRat 7 10, name := "star", maxOccurrences := 16,
    searched := false, matchList := [] }

/-- A template file named by a wildcard-free pattern that does not exist on
the filesystem. -/
def tplMissing : TemplateEnv Unit :=
  { path := "img/missing.png", isfile := false, w := 10, h := 10,
    bestMatch := fun _ => (0, (0, 0)) }

/-- An environment whose glob resolves the literal pattern of a missing
file: `lexists` is false, so the pattern resolves to no files at all. -/
def envMissing : SearchEnv Unit :=
  { grayW := 100, grayH := 100, resize := fun _ => (),
    mask := fun _ _ _ _ => (), glob := fun _ => globNoMagic false tplMissing }

/-- The element querying the missing template file. -/
def elemMissing : VisualElement :=
  { path := "img/missing.png", order := 0, disposal := 0,
    similarity := mkRat 7 10, name := "missing", maxOccurrences := 16,
    searched := false, matchList := [] }

/-- A path that exists (`lexists`) but is not a regular file (for example a
directory or a dangling symlink). -/
def tplNotFile : TemplateEnv Unit :=
  { path := "img", isfile := false, w := 10, h := 10,
    bestMatch := fun _ => (0, (0, 0)) }

/-- An environment whose glob resolves a pattern naming an existing
non-regular-file path. -/
def envNotFile : SearchEnv Unit :=
  { grayW := 100, grayH := 100, resize := fun _ => (),
    mask := fun _ _ _ _ => (), glob := fun _ => globNoMagic true tplNotFile }

/-- The element querying the non-regular-file path. -/
def elemNotFile : VisualElement :=
  { path := "img", order := 0, disposal := 0,
    similarity := mkRat 7 10, name := "img", maxOccurrences := 16,
    searched := false, matchList := [] }

/-- An element whose cache is already populated (searched flag set, empty
match list) — the state after a completed search that found nothing. -/
def elemCached : VisualElement :=
  { path := "img/element.png", order := 0, disposal := 0,
    similarity := mkRat 7 10, name := "element", maxOccurrences := 16,
    searched := true, matchList := [] }

/-- A fresh element pointed at the empty environment. -/
def elemFresh : VisualElement :=
  { path := "img/none.png", order := 0, disposal := 0,
    similarity := mkRat 7 10, name := "none", maxOccurrences := 16,
    searched := false, matchList := [] }

/-- The element state after the `envStar` search completes: the searched
flag is set and the cache holds 17 identical matches centered at (5, 5)
with score 9/10. -/
def resStar : VisualElement :=
  { elemStar with
    searched := true,
    matchList := List.replicate 17 ⟨5, 5, 10, 10, mkRat 9 10⟩ }

theorem qmul_eq_mul (a b : ℚ) : qmul a b = a * b := (Rat.mul_eq_mkRat a b).symm

theorem qdiv_eq_div (a b : ℚ) : qdiv a b = a / b := (Rat.div_def' a b).symm

theorem pyInt_intCast (n : ℤ) : pyInt (n : ℚ) = n := by
  unfold pyInt
  split <;> simp [Rat.floor, Rat.ceil]

theorem linspaceScale_eq (i : ℕ) :
    linspaceScale i = 1 / 5 + (i : ℚ) * ((1 - 1 / 5) / 19) := by
  unfold linspaceScale
  rw [Rat.mkRat_eq_div]
  push_cast
  ring

theorem qmul_one (a : ℚ) : qmul a 1 = a := by rw [qmul_eq_mul, mul_one]

theorem sortMatches_length (d : ℤ) (ms : List VisualMatch) :
    (sortMatches d ms).length = ms.length := by
  unfold sortMatches
  split
  · exact (List.perm_insertionSort _ ms).length_eq
  split
  · exact (List.perm_insertionSort _ ms).length_eq
  split
  · exact (List.perm_insertionSort _ ms).length_eq
  · rfl

theorem sortMatches_nil (d : ℤ) : sortMatches d [] = [] := by
  unfold sortMatches
  split
  · rfl
  split
  · rfl
  split <;> rfl

theorem resetObject_searched (e : VisualElement) :
    (resetObject e).searched = false := rfl

theorem resetObject_matchList (e : VisualElement) :
    (resetObject e).matchList = [] := rfl

theorem searchAllMatches_ok_shape {Image : Type} (env : SearchEnv Image)
    (e e' : VisualElement) (h : searchAllMatches env e = .ok e') :
    ∃ ms, searchFiles env (resetObject e) (env.glob e.path) [] = .ok ms ∧
      e' = { e with matchList := sortMatches e.disposal ms, searched := true } := by
  unfold searchAllMatches at h
  rcases hf : searchFiles env (resetObject e) (env.glob e.path) [] with s | ms
  · rw [hf] at h
    cases h
  · rw [hf] at h
    cases h
    exact ⟨ms, rfl, rfl⟩

theorem pyramidStep_eq_skip {Image : Type} (env : SearchEnv Image)
    (tp : TemplateEnv Image) (sim s : ℚ) {occ : Option (Occurrence Image)}
    (h : (pyrCand env tp s).val ≤ sim) :
    pyramidStep env tp sim s occ = occ := by
  simp only [pyramidStep]
  rw [if_pos h]

theorem pyramidStep_eq_new {Image : Type} (env : SearchEnv Image)
    (tp : TemplateEnv Image) (sim s : ℚ)
    (h : ¬ (pyrCand env tp s).val ≤ sim) :
    pyramidStep env tp sim s none = some (pyrCand env tp s) := by
  simp only [pyramidStep]
  rw [if_neg h]

theorem pyramidStep_eq_replace {Image : Type} (env : SearchEnv Image)
    (tp : TemplateEnv Image) (sim s : ℚ) {o : Occurrence Image}
    (h : ¬ (pyrCand env tp s).val ≤ sim) (h2 : o.val < (pyrCand env tp s).val) :
    pyramidStep env tp sim s (some o) = some (pyrCand env tp s) := by
  simp only [pyramidStep]
  rw [if_neg h, if_pos h2]

theorem pyramidStep_eq_keep {Image : Type} (env : SearchEnv Image)
    (tp : TemplateEnv Image) (sim s : ℚ) {o : Occurrence Image}
    (h : ¬ (pyrCand env tp s).val ≤ sim)
    (h2 : ¬ o.val < (pyrCand env tp s).val) :
    pyramidStep env tp sim s (some o) = some o := by
  simp only [pyramidStep]
  rw [if_neg h, if_neg h2]

theorem pyrInv_step {Image : Type} (env : SearchEnv Image)
    (tp : TemplateEnv Image) {t t' : ℚ} (ht : t ≤ t') (s : ℚ)
    {a a' : Option (Occurrence Image)} (h : pyrInv t' a a') :
    pyrInv t' (pyramidStep env tp t s a) (pyramidStep env tp t' s a') := by
  by_cases h1 : (pyrCand env tp s).val ≤ t'
  · rw [pyramidStep_eq_skip env tp t' s h1]
    by_cases h2 : (pyrCand env tp s).val ≤ t
    · rw [pyramidStep_eq_skip env tp t s h2]
      exact h
    · rcases h with ⟨haa, hval⟩ | ⟨ha', hle⟩
      · subst haa
        cases a' with
        | none =>
          rw [pyramidStep_eq_new env tp t s h2]
          exact Or.inr ⟨rfl, fun o ho => by cases ho; exact h1⟩
        | some o =>
          have hto : t' < o.val := hval o rfl
          rw [pyramidStep_eq_keep env tp t s h2 (fun hc => absurd (h1.trans_lt hto) (not_lt.2 hc.le))]
          exact Or.inl ⟨rfl, hval⟩
      · subst ha'
        cases a with
        | none =>
          rw [pyramidStep_eq_new env tp t s h2]
          exact Or.inr ⟨rfl, fun o ho => by cases ho; exact h1⟩
        | some o =>
          by_cases h3 : o.val < (pyrCand env tp s).val
          · rw [pyramidStep_eq_replace env tp t s h2 h3]
            exact Or.inr ⟨rfl, fun o' ho' => by cases ho'; exact h1⟩
          · rw [pyramidStep_eq_keep env tp t s h2 h3]
            exact Or.inr ⟨rfl, fun o' ho' => by cases ho'; exact hle o rfl⟩
  · have h2 : ¬ (pyrCand env tp s).val ≤ t := fun hc => h1 (hc.trans ht)
    rcases h with ⟨haa, hval⟩ | ⟨ha', hle⟩
    · subst haa
      cases a' with
      | none =>
        rw [pyramidStep_eq_new env tp t s h2, pyramidStep_eq_new env tp t' s h1]
        exact Or.inl ⟨rfl, fun o ho => by cases ho; exact not_le.1 h1⟩
      | some o =>
        by_cases h3 : o.val < (pyrCand env tp s).val
        · rw [pyramidStep_eq_replace env tp t s h2 h3,
            pyramidStep_eq_replace env tp t' s h1 h3]
          exact Or.inl ⟨rfl, fun o' ho' => by cases ho'; exact not_le.1 h1⟩
        · rw [pyramidStep_eq_keep env tp t s h2 h3,
            pyramidStep_eq_keep env tp t' s h1 h3]
          exact Or.inl ⟨rfl, hval⟩
    · subst ha'
      rw [pyramidStep_eq_new env tp t' s h1]
      cases a with
      | none =>
        rw [pyramidStep_eq_new env tp t s h2]
        exact Or.inl ⟨rfl, fun o ho => by cases ho; exact not_le.1 h1⟩
      | some o =>
        have h3 : o.val < (pyrCand env tp s).val :=
          (hle o rfl).trans_lt (not_le.1 h1)
        rw [pyramidStep_eq_replace env tp t s h2 h3]
        exact Or.inl ⟨rfl, fun o' ho' => by cases ho'; exact not_le.1 h1⟩

theorem pyrInv_loop {Image : Type} (env : SearchEnv Image)
    (tp : TemplateEnv Image) {t t' : ℚ} (ht : t ≤ t') (l : List ℚ)
    {a a' : Option (Occurrence Image)} (h : pyrInv t' a a') :
    pyrInv t' (pyramidLoop env tp t l a) (pyramidLoop env tp t' l a') := by
  induction l generalizing a a' with
  | nil => simpa only [pyramidLoop] using h
  | cons s rest ih =>
    by_cases hb : breakCond env tp s
    · simp only [pyramidLoop, if_pos hb]
      exact h
    · simp only [pyramidLoop, if_neg hb]
      exact ih (pyrInv_step env tp ht s h)

theorem pyramid_mono {Image : Type} (env : SearchEnv Image)
    (tp : TemplateEnv Image) {t t' : ℚ} (ht : t ≤ t') :
    pyramidLoop env tp t' scaleList none = pyramidLoop env tp t scaleList none ∨
    pyramidLoop env tp t' scaleList none = none := by
  have h := pyrInv_loop env tp ht scaleList
    (show pyrInv t' (none : Option (Occurrence Image)) none from
      Or.inl ⟨rfl, fun o ho => by cases ho⟩)
  rcases h with ⟨heq, _⟩ | ⟨hn, _⟩
  · exact Or.inl heq
  · exact Or.inr hn

theorem extractLoop_length_le {Image : Type} (env : SearchEnv Image)
    (tp : TemplateEnv Image) (sim r : ℚ) :
    ∀ (n : ℕ) (img : Image) (loc : ℤ × ℤ),
      (extractLoop env tp sim r n img loc).length ≤ n := by
  intro n
  induction n with
  | zero =>
    intro img loc
    simp [extractLoop]
  | succ n ih =>
    intro img loc
    simp only [extractLoop]
    split
    · simp
    · simpa using Nat.succ_le_succ (ih _ _)

theorem extractLoop_length_mono {Image : Type} (env : SearchEnv Image)
    (tp : TemplateEnv Image) {t t' : ℚ} (ht : t ≤ t') (r : ℚ) :
    ∀ (n : ℕ) (img : Image) (loc : ℤ × ℤ),
      (extractLoop env tp t' r n img loc).length ≤
        (extractLoop env tp t r n img loc).length := by
  intro n
  induction n with
  | zero =>
    intro img loc
    simp [extractLoop]
  | succ n ih =>
    intro img loc
    simp only [extractLoop]
    by_cases h1 : (tp.bestMatch (env.mask img loc tp.w tp.h)).1 ≤ t'
    · rw [if_pos h1]
      simp
    · rw [if_neg h1, if_neg fun h2 => h1 (h2.trans ht)]
      simpa using Nat.succ_le_succ (ih _ _)

theorem extractLoop_mem {Image : Type} (env : SearchEnv Image)
    (tp : TemplateEnv Image) (sim r : ℚ) :
    ∀ (n : ℕ) (img : Image) (loc : ℤ × ℤ) (m : VisualMatch),
      m ∈ extractLoop env tp sim r n img loc →
      ∃ l v, m = mkMatch l tp.w tp.h r v := by
  intro n
  induction n with
  | zero =>
    intro img loc m hm
    simp [extractLoop] at hm
  | succ n ih =>
    intro img loc m hm
    simp only [extractLoop] at hm
    split at hm
    · simp at hm
    · rcases List.mem_cons.1 hm with h | h
      · exact ⟨_, _, h⟩
      · exact ih _ _ _ h

theorem findCore_length_mono {Image : Type} (env : SearchEnv Image)
    (tp : TemplateEnv Image) {t t' : ℚ} (ht : t ≤ t') (maxOcc : ℕ) :
    (findCore env tp t' maxOcc).length ≤ (findCore env tp t maxOcc).length := by
  unfold findCore
  rcases pyramid_mono env tp ht with he | hn
  · rw [he]
    cases hp : pyramidLoop env tp t scaleList none with
    | none => exact Nat.le_refl _
    | some o =>
      simpa using Nat.succ_le_succ
        (extractLoop_length_mono env tp ht o.r maxOcc o.resized o.loc)
  · rw [hn]
    cases hp : pyramidLoop env tp t scaleList none with
    | none => exact Nat.le_refl _
    | some o => simp

theorem findCore_length_le {Image : Type} (env : SearchEnv Image)
    (tp : TemplateEnv Image) (sim : ℚ) (maxOcc : ℕ) :
    (findCore env tp sim maxOcc).length ≤ maxOcc + 1 := by
  unfold findCore
  cases hp : pyramidLoop env tp sim scaleList none with
  | none => simp
  | some o =>
    simpa using Nat.succ_le_succ
      (extractLoop_length_le env tp sim o.r maxOcc o.resized o.loc)

theorem findMatches_mono {Image : Type} (env : SearchEnv Image)
    (e1 e2 : VisualElement) (tp : TemplateEnv Image)
    (hd : e1.disposal = e2.disposal) (ho : e1.order = e2.order)
    (hm : e1.maxOccurrences = e2.maxOccurrences)
    (ht : e1.similarity ≤ e2.similarity) :
    (∃ s, findMatches env e1 tp = .error s ∧ findMatches env e2 tp = .error s) ∨
    (∃ ms1 ms2, findMatches env e1 tp = .ok ms1 ∧
      findMatches env e2 tp = .ok ms2 ∧ ms2.length ≤ ms1.length) := by
  unfold findMatches
  rw [hd, ho, hm]
  split_ifs with h1 h2 h3
  all_goals first
    | exact Or.inl ⟨_, rfl, rfl⟩
    | exact Or.inr ⟨_, _, rfl, rfl, findCore_length_mono env tp ht _⟩

theorem findMatches_ok_length {Image : Type} (env : SearchEnv Image)
    (e : VisualElement) (tp : TemplateEnv Image) {ms : List VisualMatch}
    (h : findMatches env e tp = .ok ms) : ms.length ≤ e.maxOccurrences + 1 := by
  unfold findMatches at h
  split_ifs at h
  all_goals first
    | exact h.elim
    | exact (Except.ok.inj h) ▸ findCore_length_le env tp e.similarity e.maxOccurrences

theorem findMatches_ok_core {Image : Type} (env : SearchEnv Image)
    (e : VisualElement) (tp : TemplateEnv Image) {ms : List VisualMatch}
    (h : findMatches env e tp = .ok ms) :
    ms = findCore env tp e.similarity e.maxOccurrences := by
  unfold findMatches at h
  split_ifs at h
  all_goals first
    | exact h.elim
    | exact (Except.ok.inj h).symm

theorem findMatches_eq_isfile_error {Image : Type} (env : SearchEnv Image)
    (e : VisualElement) (tp : TemplateEnv Image) (h : tp.isfile = false) :
    findMatches env e tp =
      .error ("Template route doesn't exist: " ++ tp.path) := by
  unfold findMatches
  rw [if_pos h]

theorem findMatches_eq_disposal_error {Image : Type} (env : SearchEnv Image)
    (e : VisualElement) (tp : TemplateEnv Image) (h : tp.isfile = true)
    (hd : ¬ (0 ≤ e.disposal ∧ e.disposal < 2)) :
    findMatches env e tp =
      .error ("Disposal priority not valid: " ++ toString e.disposal) := by
  unfold findMatches
  rw [if_neg (by simp [h]), if_pos hd]

theorem findMatches_eq_order_error {Image : Type} (env : SearchEnv Image)
    (e : VisualElement) (tp : TemplateEnv Image) (h : tp.isfile = true)
    (hd : 0 ≤ e.disposal ∧ e.disposal < 2)
    (ho : ¬ (0 ≤ e.order ∧ e.order < (e.maxOccurrences : ℤ))) :
    findMatches env e tp =
      .error ("Order above max occurrences: " ++ toString e.order ++ " > " ++
        toString e.maxOccurrences) := by
  unfold findMatches
  rw [if_neg (by simp [h]), if_neg (not_not_intro hd), if_pos ho]

theorem findMatches_eq_ok {Image : Type} (env : SearchEnv Image)
    (e : VisualElement) (tp : TemplateEnv Image) (h : tp.isfile = true)
    (hd : 0 ≤ e.disposal ∧ e.disposal < 2)
    (ho : 0 ≤ e.order ∧ e.order < (e.maxOccurrences : ℤ)) :
    findMatches env e tp =
      .ok (findCore env tp e.similarity e.maxOccurrences) := by
  unfold findMatches
  rw [if_neg (by simp [h]), if_neg (not_not_intro hd), if_neg (not_not_intro ho)]

theorem findCore_mem {Image : Type} (env : SearchEnv Image)
    (tp : TemplateEnv Image) (sim : ℚ) (maxOcc : ℕ) {o : Occurrence Image}
    (hp : pyramidLoop env tp sim scaleList none = some o) :
    ∀ m ∈ findCore env tp sim maxOcc, ∃ l v, m = mkMatch l tp.w tp.h o.r v := by
  intro m hm
  unfold findCore at hm
  rw [hp] at hm
  rcases List.mem_cons.1 hm with h | h
  · exact ⟨o.loc, o.val, h⟩
  · exact extractLoop_mem env tp sim o.r maxOcc o.resized o.loc m h

theorem searchFiles_mono {Image : Type} (env : SearchEnv Image)
    (e1 e2 : VisualElement) (hd : e1.disposal = e2.disposal)
    (ho : e1.order = e2.order) (hm : e1.maxOccurrences = e2.maxOccurrences)
    (ht : e1.similarity ≤ e2.similarity) :
    ∀ (fs : List (TemplateEnv Image)) (acc1 acc2 : List VisualMatch),
      acc2.length ≤ acc1.length → ∀ {L1 L2 : List VisualMatch},
      searchFiles env e1 fs acc1 = .ok L1 →
      searchFiles env e2 fs acc2 = .ok L2 →
      L2.length ≤ L1.length := by
  intro fs
  induction fs with
  | nil =>
    intro acc1 acc2 hacc L1 L2 hL1 hL2
    simp only [searchFiles] at hL1 hL2
    cases hL1
    cases hL2
    exact hacc
  | cons tp ts ih =>
    intro acc1 acc2 hacc L1 L2 hL1 hL2
    simp only [searchFiles] at hL1 hL2
    rcases findMatches_mono env e1 e2 tp hd ho hm ht with
      ⟨s, he1, he2⟩ | ⟨ms1, ms2, hk1, hk2, hlen⟩
    · rw [he1] at hL1
      cases hL1
    · rw [hk1] at hL1
      rw [hk2] at hL2
      exact ih (acc1 ++ ms1) (acc2 ++ ms2)
        (by simp only [List.length_append]; omega) hL1 hL2

theorem searchFiles_length_le {Image : Type} (env : SearchEnv Image)
    (e : VisualElement) :
    ∀ (fs : List (TemplateEnv Image)) (acc : List VisualMatch)
      {L : List VisualMatch}, searchFiles env e fs acc = .ok L →
      L.length ≤ acc.length + fs.length * (e.maxOccurrences + 1) := by
  intro fs
  induction fs with
  | nil =>
    intro acc L hL
    simp only [searchFiles] at hL
    cases hL
    simp
  | cons tp ts ih =>
    intro acc L hL
    simp only [searchFiles] at hL
    rcases hf : findMatches env e tp with s | ms
    · rw [hf] at hL
      cases hL
    · rw [hf] at hL
      have hms : ms.length ≤ e.maxOccurrences + 1 := findMatches_ok_length env e tp hf
      have hrec := ih (acc ++ ms) hL
      simp only [List.length_append, List.length_cons, Nat.succ_mul] at hrec ⊢
      omega

theorem matchesQuery_ok_shape {Image : Type} (env : SearchEnv Image)
    (e : VisualElement) {ms : List VisualMatch} {e' : VisualElement}
    (h : matchesQuery env e = .ok (ms, e')) :
    e'.searched = true ∧ e'.matchList = ms ∧ e'.order = e.order := by
  unfold matchesQuery at h
  by_cases hs : e.searched = true
  · rw [if_pos hs] at h
    cases h
    exact ⟨hs, rfl, rfl⟩
  · rw [if_neg hs] at h
    cases ha : searchAllMatches env e with
    | error s =>
      rw [ha] at h
      cases h
    | ok e2 =>
      rw [ha] at h
      have hpair : (e2.matchList, e2) = (ms, e') := Except.ok.inj h
      have hml : e2.matchList = ms := congrArg Prod.fst hpair
      have he2 : e2 = e' := congrArg Prod.snd hpair
      obtain ⟨ms2, _, hshape⟩ := searchAllMatches_ok_shape env e e2 ha
      refine ⟨?_, ?_, ?_⟩
      · rw [← he2, hshape]
      · rw [← he2]
        exact hml
      · rw [← he2, hshape]

theorem sortMatches_sorted_sim (ms : List VisualMatch) :
    (sortMatches 0 ms).Pairwise (fun a b => b.similarity ≤ a.similarity) := by
  unfold sortMatches
  rw [if_neg (by decide : ¬ (0 : ℤ) = 1), if_neg (by decide : ¬ (0 : ℤ) = 2),
    if_pos rfl]
  haveI : IsTotal VisualMatch (fun a b => b.similarity ≤ a.similarity) :=
    ⟨fun a b => le_total b.similarity a.similarity⟩
  haveI : IsTrans VisualMatch (fun a b => b.similarity ≤ a.similarity) :=
    ⟨fun a b c hab hbc => le_trans hbc hab⟩
  exact List.sorted_insertionSort _ ms

theorem sortMatches_sorted_y (ms : List VisualMatch) :
    (sortMatches 1 ms).Pairwise (fun a b => a.y ≤ b.y) := by
  unfold sortMatches
  rw [if_pos rfl]
  haveI : IsTotal VisualMatch (fun a b => a.y ≤ b.y) :=
    ⟨fun a b => le_total a.y b.y⟩
  haveI : IsTrans VisualMatch (fun a b => a.y ≤ b.y) :=
    ⟨fun a b c hab hbc => le_trans hab hbc⟩
  exact List.sorted_insertionSort _ ms

theorem sortMatches_sorted_x (ms : List VisualMatch) :
    (sortMatches 2 ms).Pairwise (fun a b => a.x ≤ b.x) := by
  unfold sortMatches
  rw [if_neg (by decide : ¬ (2 : ℤ) = 1), if_pos rfl]
  haveI : IsTotal VisualMatch (fun a b => a.x ≤ b.x) :=
    ⟨fun a b => le_total a.x b.x⟩
  haveI : IsTrans VisualMatch (fun a b => a.x ≤ b.x) :=
    ⟨fun a b c hab hbc => le_trans hab hbc⟩
  exact List.sorted_insertionSort _ ms

theorem getBounds_one (loc : ℤ × ℤ) (w h : ℕ) :
    getBounds loc w h 1 = (loc.1, loc.2, loc.1 + (w : ℤ), loc.2 + (h : ℤ)) := by
  unfold getBounds
  simp only [qmul_one, pyInt_intCast]

/-- C1: the module enumerates three disposal policies (SIMILARITY_ORDER 0,
VERTICAL_ORDER 1, HORIZONTAL_ORDER 2) and `_search_all_matches` has a sort
branch for each, but `_find_matches` validates `disposal not in range(2)`:
with a resolved template file present, the horizontal policy (2) is rejected
exactly like the out-of-set value 3, while policies 0 and 1 proceed to a
completed search.  This evaluates the code at the failing input. -/
theorem disposal_policy_range_bug :
    searchAllMatches envStar { elemStar with disposal := 2 } =
      .error "Disposal priority not valid: 2" ∧
    searchAllMatches envStar { elemStar with disposal := 3 } =
      .error "Disposal priority not valid: 3" ∧
    (searchAllMatches envStar elemStar).toOption.isSome = true ∧
    (searchAllMatches envStar
      { elemStar with disposal := 1 }).toOption.isSome = true := by
  refine ⟨by decide, by decide, by decide, by decide⟩

/-- C2 counterexample: with one resolved template file on a screen full of
copies (every re-match scores 9/10, above the 7/10 threshold), a completed
search returns 17 matches although `max_occurrences = 16` — the cap bounds
only the suppression loop, which runs after the first match is emitted. -/
theorem occurrence_cap_counterexample :
    (searchAllMatches envStar elemStar).toOption.map
        (fun r => r.matchList.length) = some 17 ∧
    elemStar.maxOccurrences = 16 ∧ ¬ (17 ≤ 16) := by
  refine ⟨by decide, rfl, by decide⟩

/-- C2 amended: the number of matches of a completed search is at most
(number of glob-resolved template files) × (max_occurrences + 1): each
template file contributes the first emitted match plus at most
`max_occurrences` from the suppression loop. -/
theorem occurrence_cap_amended {Image : Type} (env : SearchEnv Image)
    (e : VisualElement) (n : ℕ)
    (h : (searchAllMatches env e).toOption.map
        (fun r => r.matchList.length) = some n) :
    n ≤ (env.glob e.path).length * (e.maxOccurrences + 1) := by
  cases ha : searchAllMatches env e with
  | error s =>
    rw [ha] at h
    simp [Except.toOption] at h
  | ok e' =>
    rw [ha] at h
    have hn : e'.matchList.length = n := by simpa [Except.toOption] using h
    subst hn
    obtain ⟨ms, hms, hshape⟩ := searchAllMatches_ok_shape env e e' ha
    rw [hshape]
    show (sortMatches e.disposal ms).length ≤ _
    rw [sortMatches_length]
    simpa [resetObject] using
      searchFiles_length_le env (resetObject e) (env.glob e.path) [] hms

/-- C2 amended witness: the concrete 17-match search stays within one file
times (16 + 1). -/
theorem occurrence_cap_amended_witness :
    17 ≤ (envStar.glob elemStar.path).length * (elemStar.maxOccurrences + 1) :=
  occurrence_cap_amended envStar elemStar 17 (by decide)

/-- C3 counterexample: in the `envScaled` search the winning scale has
ratio 100/57 and location (0, 0), which maps to the source-pixel box
(0, 0, 17, 17); the midpoint abscissa of that box is 8.5 (so 8 or 9 under
any rounding), but the emitted match is centered at (5, 5) — the code adds
`int(w/2)` of the template width in resized coordinates instead of half the
source box. -/
theorem match_center_counterexample :
    (pyramidLoop envScaled tplScaled elemScaled.similarity scaleList
        none).map (fun o => (o.val, o.loc, o.r)) =
      some (mkRat 9 10, (0, 0), qdiv ((100 : ℕ) : ℚ) ((57 : ℕ) : ℚ)) ∧
    (searchAllMatches envScaled elemScaled).toOption.map
        (fun r => r.matchList.map (fun m => (m.x, m.y))) = some [(5, 5)] ∧
    getBounds (0, 0) 10 10 (qdiv ((100 : ℕ) : ℚ) ((57 : ℕ) : ℚ)) =
      (0, 0, 17, 17) ∧
    ¬ (0 + 17 - 1 ≤ 2 * (5 : ℤ) ∧ 2 * (5 : ℤ) ≤ 0 + 17 + 1) := by
  refine ⟨by decide, by decide, by decide, by decide⟩

/-- C3 amended: every match emitted by `_find_matches` is built by
`mkMatch` from some location and score at the single winning scale's ratio,
and the `mkMatch` center is the box top-left plus `(⌊w/2⌋, ⌊h/2⌋)` in
resized-template units — which coincides with the (floor) midpoint of the
source-pixel bounding box exactly when the winning scale ratio is 1, not at
every winning scale. -/
theorem match_center_amended :
    (∀ (Image : Type) (env : SearchEnv Image) (e : VisualElement)
        (tp : TemplateEnv Image) (o : Occurrence Image)
        (ms : List VisualMatch),
        pyramidLoop env tp e.similarity scaleList none = some o →
        findMatches env e tp = .ok ms →
        ∀ m ∈ ms, ∃ loc v, m = mkMatch loc tp.w tp.h o.r v) ∧
    (∀ (loc : ℤ × ℤ) (w h : ℕ) (v : ℚ),
        ((getBounds loc w h 1).1 + (getBounds loc w h 1).2.2.1 - 1 ≤
            2 * (mkMatch loc w h 1 v).x ∧
          2 * (mkMatch loc w h 1 v).x ≤
            (getBounds loc w h 1).1 + (getBounds loc w h 1).2.2.1) ∧
        ((getBounds loc w h 1).2.1 + (getBounds loc w h 1).2.2.2 - 1 ≤
            2 * (mkMatch loc w h 1 v).y ∧
          2 * (mkMatch loc w h 1 v).y ≤
            (getBounds loc w h 1).2.1 + (getBounds loc w h 1).2.2.2)) := by
  constructor
  · intro Image env e tp o ms hp hok m hm
    have hcore := findMatches_ok_core env e tp hok
    subst hcore
    exact findCore_mem env tp e.similarity e.maxOccurrences hp m hm
  · intro loc w h v
    simp only [mkMatch, getBounds_one]
    refine ⟨⟨?_, ?_⟩, ⟨?_, ?_⟩⟩ <;> omega

/-- C3 amended witness: the `envScaled` search instantiates the first
conjunct; the second conjunct at location (3, 4), template 10 x 10 and
ratio 1 makes the center the floor midpoint of the box. -/
theorem match_center_amended_witness :
    (∀ m ∈ ([mkMatch (0, 0) 10 10 oScaled.r (mkRat 9 10)] :
        List VisualMatch),
      ∃ loc v, m = mkMatch loc tplScaled.w tplScaled.h oScaled.r v) ∧
    (((getBounds (3, 4) 10 10 1).1 + (getBounds (3, 4) 10 10 1).2.2.1 - 1 ≤
        2 * (mkMatch (3, 4) 10 10 1 (mkRat 9 10)).x ∧
      2 * (mkMatch (3, 4) 10 10 1 (mkRat 9 10)).x ≤
        (getBounds (3, 4) 10 10 1).1 + (getBounds (3, 4) 10 10 1).2.2.1) ∧
     ((getBounds (3, 4) 10 10 1).2.1 + (getBounds (3, 4) 10 10 1).2.2.2 - 1 ≤
        2 * (mkMatch (3, 4) 10 10 1 (mkRat 9 10)).y ∧
      2 * (mkMatch (3, 4) 10 10 1 (mkRat 9 10)).y ≤
        (getBounds (3, 4) 10 10 1).2.1 + (getBounds (3, 4) 10 10 1).2.2.2)) :=
  ⟨match_center_amended.1 ℕ envScaled elemScaled tplScaled oScaled _
      (by decide) (by decide),
    match_center_amended.2 (3, 4) 10 10 (mkRat 9 10)⟩

/-- C4 counterexample: with a glob pattern resolving to zero files, a
search on an element whose disposal policy (5) and order (20 ≥ 16) are both
invalid completes with zero matches and raises no configuration error —
validation lives in `_find_matches`, which never runs when no file is
resolved. -/
theorem validation_zero_files_counterexample :
    (searchAllMatches envUnit elemBadConfig).toOption.map
        (fun r => r.matchList) = some [] ∧
    envUnit.glob elemBadConfig.path = [] ∧
    ¬ (0 ≤ elemBadConfig.disposal ∧ elemBadConfig.disposal < 2) ∧
    ¬ (0 ≤ elemBadConfig.order ∧
        elemBadConfig.order < (elemBadConfig.maxOccurrences : ℤ)) := by
  refine ⟨by decide, rfl, by decide, by decide⟩

/-- C4 amended: `disposal` and `order` are validated once per resolved
template file, before matching, so with at least one resolved existing file
an invalid configuration raises the configuration error regardless of any
match result; but when the pattern resolves to zero files no validation
happens at all and the search completes with zero matches. -/
theorem validation_zero_files_amended :
    (∀ (Image : Type) (env : SearchEnv Image) (e : VisualElement),
      env.glob e.path = [] →
      searchAllMatches env e =
        .ok { resetObject e with matchList := [], searched := true }) ∧
    (∀ (Image : Type) (env : SearchEnv Image) (e : VisualElement)
        (t : TemplateEnv Image) (ts : List (TemplateEnv Image)),
      env.glob e.path = t :: ts → t.isfile = true →
      ¬ (0 ≤ e.disposal ∧ e.disposal < 2) →
      searchAllMatches env e =
        .error ("Disposal priority not valid: " ++ toString e.disposal)) ∧
    (∀ (Image : Type) (env : SearchEnv Image) (e : VisualElement)
        (t : TemplateEnv Image) (ts : List (TemplateEnv Image)),
      env.glob e.path = t :: ts → t.isfile = true →
      (0 ≤ e.disposal ∧ e.disposal < 2) →
      ¬ (0 ≤ e.order ∧ e.order < (e.maxOccurrences : ℤ)) →
      searchAllMatches env e =
        .error ("Order above max occurrences: " ++ toString e.order ++
          " > " ++ toString e.maxOccurrences)) := by
  refine ⟨?_, ?_, ?_⟩
  · intro Image env e hglob
    unfold searchAllMatches
    rw [hglob]
    exact congrArg (fun L => Except.ok
      { resetObject e with matchList := L, searched := true })
      (sortMatches_nil e.disposal)
  · intro Image env e t ts hglob hisfile hdisp
    unfold searchAllMatches
    rw [hglob]
    simp only [searchFiles]
    rw [findMatches_eq_disposal_error env (resetObject e) t hisfile hdisp]
    rfl
  · intro Image env e t ts hglob hisfile hvalid horder
    unfold searchAllMatches
    rw [hglob]
    simp only [searchFiles]
    rw [findMatches_eq_order_error env (resetObject e) t hisfile hvalid horder]
    rfl

/-- C4 amended witness: the zero-file search on the invalid configuration
completes; with one existing file the invalid disposal 5 and the invalid
order 20 raise their configuration errors. -/
theorem validation_zero_files_amended_witness :
    searchAllMatches envUnit elemBadConfig =
      .ok { resetObject elemBadConfig with
        matchList := [], searched := true } ∧
    searchAllMatches envStar { elemStar with disposal := 5 } =
      .error "Disposal priority not valid: 5" ∧
    searchAllMatches envStar { elemStar with order := 20 } =
      .error "Order above max occurrences: 20 > 16" :=
  ⟨validation_zero_files_amended.1 Unit envUnit elemBadConfig rfl,
    validation_zero_files_amended.2.1 Unit envStar
      { elemStar with disposal := 5 } tplStar [] rfl rfl (by decide),
    validation_zero_files_amended.2.2 Unit envStar
      { elemStar with order := 20 } tplStar [] rfl rfl (by decide) (by decide)⟩

/-- C5 counterexample: a wildcard-free pattern naming a missing file
resolves (per CPython glob semantics, `globNoMagic`) to the empty list, so
the search completes with zero matches instead of raising the configuration
error the claim requires for a missing specifically-referenced file. -/
theorem missing_file_counterexample :
    envMissing.glob elemMissing.path = globNoMagic false tplMissing ∧
    tplMissing.isfile = false ∧
    (searchAllMatches envMissing elemMissing).toOption.map
        (fun r => r.matchList) = some [] := by
  refine ⟨rfl, rfl, by decide⟩

/-- C5 amended: a wildcard-free pattern naming a missing path (`lexists`
false) resolves to zero files and the search returns zero matches without
error; the "Template route doesn't exist" configuration error is raised
exactly when the glob returns a path that exists but is not a regular file
(`os.path.isfile` false), such as a directory or dangling symlink. -/
theorem missing_file_amended :
    (∀ (Image : Type) (env : SearchEnv Image) (e : VisualElement)
        (t : TemplateEnv Image),
      env.glob e.path = globNoMagic false t →
      searchAllMatches env e =
        .ok { resetObject e with matchList := [], searched := true }) ∧
    (∀ (Image : Type) (env : SearchEnv Image) (e : VisualElement)
        (t : TemplateEnv Image),
      env.glob e.path = globNoMagic true t → t.isfile = false →
      searchAllMatches env e =
        .error ("Template route doesn't exist: " ++ t.path)) := by
  constructor
  · intro Image env e t hglob
    unfold searchAllMatches
    rw [hglob]
    exact congrArg (fun L => Except.ok
      { resetObject e with matchList := L, searched := true })
      (sortMatches_nil e.disposal)
  · intro Image env e t hglob hisfile
    unfold searchAllMatches
    rw [hglob]
    show (match searchFiles env (resetObject e) [t] [] with
      | Except.error s => Except.error s
      | Except.ok ms => Except.ok { resetObject e with
          matchList := sortMatches e.disposal ms, searched := true }) = _
    simp only [searchFiles]
    rw [findMatches_eq_isfile_error env (resetObject e) t hisfile]

/-- C5 amended witness: the missing-file search completes with zero
matches; the existing-but-not-regular-file path raises the template-route
error. -/
theorem missing_file_amended_witness :
    searchAllMatches envMissing elemMissing =
      .ok { resetObject elemMissing with
        matchList := [], searched := true } ∧
    searchAllMatches envNotFile elemNotFile =
      .error "Template route doesn't exist: img" :=
  ⟨missing_file_amended.1 Unit envMissing elemMissing tplMissing rfl,
    missing_file_amended.2 Unit envNotFile elemNotFile tplNotFile rfl rfl⟩

/-- C6: a completed search returns its matches sorted by the configured
disposal policy — similarity non-increasing for policy 0, `y` non-decreasing
for policy 1, `x` non-decreasing for policy 2, stated as adjacent-pair
monotonicity via `List.Pairwise`. -/
theorem ordering_correctness {Image : Type} (env : SearchEnv Image)
    (e e' : VisualElement) (h : searchAllMatches env e = .ok e') :
    (e.disposal = 0 →
      e'.matchList.Pairwise (fun a b => b.similarity ≤ a.similarity)) ∧
    (e.disposal = 1 → e'.matchList.Pairwise (fun a b => a.y ≤ b.y)) ∧
    (e.disposal = 2 → e'.matchList.Pairwise (fun a b => a.x ≤ b.x)) := by
  obtain ⟨ms, _, hshape⟩ := searchAllMatches_ok_shape env e e' h
  subst hshape
  refine ⟨fun hd => ?_, fun hd => ?_, fun hd => ?_⟩
  · show (sortMatches e.disposal ms).Pairwise _
    rw [hd]
    exact sortMatches_sorted_sim ms
  · show (sortMatches e.disposal ms).Pairwise _
    rw [hd]
    exact sortMatches_sorted_y ms
  · show (sortMatches e.disposal ms).Pairwise _
    rw [hd]
    exact sortMatches_sorted_x ms

/-- C6 witness at the concrete 17-match search, whose result state is
`resStar`. -/
theorem ordering_correctness_witness :
    (elemStar.disposal = 0 →
      resStar.matchList.Pairwise (fun a b => b.similarity ≤ a.similarity)) ∧
    (elemStar.disposal = 1 →
      resStar.matchList.Pairwise (fun a b => a.y ≤ b.y)) ∧
    (elemStar.disposal = 2 →
      resStar.matchList.Pairwise (fun a b => a.x ≤ b.x)) :=
  ordering_correctness envStar elemStar resStar (by decide)

/-- C7: for a fixed environment and element, raising the similarity
threshold never increases the number of matches of a completed search. -/
theorem threshold_monotonicity {Image : Type} (env : SearchEnv Image)
    (e : VisualElement) (t t' : ℚ) (n n' : ℕ) (ht : t ≤ t')
    (h1 : (searchAllMatches env { e with similarity := t }).toOption.map
        (fun r => r.matchList.length) = some n)
    (h2 : (searchAllMatches env { e with similarity := t' }).toOption.map
        (fun r => r.matchList.length) = some n') :
    n' ≤ n := by
  cases ha1 : searchAllMatches env { e with similarity := t } with
  | error s =>
    rw [ha1] at h1
    simp [Except.toOption] at h1
  | ok e1 =>
  cases ha2 : searchAllMatches env { e with similarity := t' } with
  | error s =>
    rw [ha2] at h2
    simp [Except.toOption] at h2
  | ok e2 =>
    rw [ha1] at h1
    rw [ha2] at h2
    have hn1 : e1.matchList.length = n := by simpa [Except.toOption] using h1
    have hn2 : e2.matchList.length = n' := by simpa [Except.toOption] using h2
    obtain ⟨ms1, hf1, hs1⟩ := searchAllMatches_ok_shape env _ e1 ha1
    obtain ⟨ms2, hf2, hs2⟩ := searchAllMatches_ok_shape env _ e2 ha2
    subst hs1
    subst hs2
    rw [← hn1, ← hn2]
    show (sortMatches _ ms2).length ≤ (sortMatches _ ms1).length
    rw [sortMatches_length, sortMatches_length]
    exact searchFiles_mono env (resetObject { e with similarity := t })
      (resetObject { e with similarity := t' }) rfl rfl rfl ht
      (env.glob e.path) [] [] (Nat.le_refl 0) hf1 hf2

/-- C7 witness: at threshold 7/10 the concrete search finds 17 matches, at
threshold 19/20 it finds 0. -/
theorem threshold_monotonicity_witness :
    mkRat 7 10 ≤ mkRat 19 20 ∧ (0 : ℕ) ≤ 17 :=
  ⟨by decide,
    threshold_monotonicity envStar elemStar (mkRat 7 10) (mkRat 19 20) 17 0
      (by decide) (by decide) (by decide)⟩

/-- C8: once the searched flag is set, every query answers from the cached
match list with an unchanged element state; a query on a fresh element
leaves a state on which the query is idempotent; and `reset_object` clears
the flag and the list. -/
theorem cache_reuse :
    (∀ (Image : Type) (env : SearchEnv Image) (e : VisualElement),
      e.searched = true → matchesQuery env e = .ok (e.matchList, e)) ∧
    (∀ (Image : Type) (env : SearchEnv Image) (e : VisualElement)
        (ms : List VisualMatch) (e' : VisualElement),
      matchesQuery env e = .ok (ms, e') →
      matchesQuery env e' = .ok (ms, e') ∧ e'.matchList = ms) ∧
    (∀ e : VisualElement,
      (resetObject e).searched = false ∧ (resetObject e).matchList = []) := by
  have hcached : ∀ (Image : Type) (env : SearchEnv Image) (e : VisualElement),
      e.searched = true → matchesQuery env e = .ok (e.matchList, e) := by
    intro Image env e hs
    unfold matchesQuery
    rw [if_pos hs]
  refine ⟨hcached, ?_, fun e => ⟨rfl, rfl⟩⟩
  intro Image env e ms e' h
  obtain ⟨hs, hml, _⟩ := matchesQuery_ok_shape env e h
  have := hcached Image env e' hs
  rw [hml] at this
  exact ⟨this, hml⟩

/-- C8 witness: the cached element answers from its cache; that answer is
idempotent; reset clears. -/
theorem cache_reuse_witness :
    matchesQuery envUnit elemCached = .ok (elemCached.matchList, elemCached) ∧
    (matchesQuery envUnit elemCached = .ok ([], elemCached) ∧
      elemCached.matchList = []) ∧
    ((resetObject elemCached).searched = false ∧
      (resetObject elemCached).matchList = []) :=
  ⟨cache_reuse.1 Unit envUnit elemCached rfl,
    cache_reuse.2.1 Unit envUnit elemCached [] elemCached (by decide),
    cache_reuse.2.2 elemCached⟩

/-- C9 counterexample: accessing index 5 on an element named "element" with
no found matches raises "Index above matches: 0 > 0" — the message
interpolates the configured `order` attribute (0), not the requested index
(5), and does not contain the element's diagnostic name. -/
theorem index_error_message_counterexample :
    getitemQuery envUnit elemCached 5 = .error "Index above matches: 0 > 0" ∧
    ¬ ((toString (5 : ℕ)).toList <:+: "Index above matches: 0 > 0".toList) ∧
    elemCached.name = "element" ∧
    ¬ ("element".toList <:+: "Index above matches: 0 > 0".toList) := by
  refine ⟨by decide, by decide, rfl, by decide⟩

/-- C9 amended: an out-of-range access fails with the message
"Index above matches: {order} > {found count}" — it interpolates the
element's configured `order` attribute and the found-match count, not the
requested index, and never the element's name. -/
theorem index_error_message_amended {Image : Type} (env : SearchEnv Image)
    (e : VisualElement) (i : ℕ) (ms : List VisualMatch) (e' : VisualElement)
    (h : matchesQuery env e = .ok (ms, e')) (hi : ms.length ≤ i) :
    getitemQuery env e i =
      .error ("Index above matches: " ++ toString e.order ++ " > " ++
        toString ms.length) := by
  obtain ⟨_, hml, hord⟩ := matchesQuery_ok_shape env e h
  unfold getitemQuery
  rw [h]
  show (match ms.get? i with
    | some m => Except.ok (m, e')
    | none =>
      Except.error ("Index above matches: " ++ toString e'.order ++ " > " ++
        toString e'.matchList.length)) = _
  rw [List.get?_eq_none.2 hi, hord, hml]

/-- C9 amended witness at the concrete out-of-range access. -/
theorem index_error_message_amended_witness :
    getitemQuery envUnit elemCached 5 =
      .error ("Index above matches: " ++ toString elemCached.order ++ " > " ++
        toString ([] : List VisualMatch).length) :=
  index_error_message_amended envUnit elemCached 5 [] elemCached
    (by decide) (by decide)

/-- C10: `is_visible` never answers from the cache — its result is
invariant under any cached match list and searched flag, because
`_search_all_matches` begins by resetting the object, so the search it runs
coincides with the search on the explicitly invalidated element. -/
theorem is_visible_fresh_search :
    (∀ (Image : Type) (env : SearchEnv Image) (e : VisualElement)
        (ms : List VisualMatch) (b : Bool),
      isVisible env { e with matchList := ms, searched := b } =
        isVisible env e) ∧
    (∀ (Image : Type) (env : SearchEnv Image) (e : VisualElement),
      searchAllMatches env e = searchAllMatches env (resetObject e)) :=
  ⟨fun _ _ _ _ _ => rfl, fun _ _ _ => rfl⟩

end Velenium
